import Mathlib

/-!
# Verification of the Dynasty Tracker bot's readiness-state engine

A shallow embedding of the readiness-state engine of the Dynasty Tracker
chat bot (`storage.py`, `dynasty_tracker.py`, `reminders.py`, `Config.py`).

Modelling conventions:
* Python dicts with string keys become association lists (`List (String × _)`)
  preserving insertion order; keys are unique in every table the program builds.
* Python string upper-casing (`str.upper`) becomes `upper`, ASCII upper-casing
  of every character; the configured identifiers are ASCII.
* Python substring tests (`pat in s`) become `containsSub s pat`.
* Side effects (sending embeds, deleting messages) are returned as an explicit
  list of `Effect` values; mutation of the storage singleton becomes explicit
  state passing of the `Table`.
* Guild member lookup for mention resolution is abstracted as a function
  `resolve : String → Option String` from a tracked user name to the mention
  token of the member found for it (if any).
* The JSON text layer of `json.dump`/`json.load` is modelled at the level of
  JSON values (`Json` below); the json library's text codec is taken as a
  faithful bijection between values and well-formed text.
-/

namespace DynastyBot

/-- ASCII upper-casing of a string, modelling Python's `str.upper()` on the
ASCII identifiers this program uses. -/
def upper (s : String) : String := ⟨s.data.map Char.toUpper⟩

/-- `leadsWith pat l` : `pat` is an initial segment of `l`. -/
def leadsWith : List Char → List Char → Bool
  | [], _ => true
  | _ :: _, [] => false
  | a :: as, b :: bs => a == b && leadsWith as bs

/-- `hasSub pat l` : `pat` occurs contiguously somewhere in `l`. -/
def hasSub (pat : List Char) : List Char → Bool
  | [] => leadsWith pat []
  | b :: bs => leadsWith pat (b :: bs) || hasSub pat bs

/-- `containsSub s pat` models Python's `pat in s` substring test. -/
def containsSub (s pat : String) : Bool := hasSub pat.data s.data

/-- Association-list lookup, modelling Python dict indexing / `in` tests
(keys are unique in every table this program builds). -/
def alookup (k : String) : List (String × α) → Option α
  | [] => none
  | p :: ps => if p.1 = k then some p.2 else alookup k ps

/-- Association-list update at an existing key, modelling Python
`d[k] = v` for a key already present (position and other entries kept). -/
def aupdate (k : String) (v : α) : List (String × α) → List (String × α)
  | [] => []
  | p :: ps => if p.1 = k then (p.1, v) :: ps else p :: aupdate k v ps

/-! ## Configuration (`Config.py`) -/

/-- `Config.DYNASTIES`. -/
def DYNASTIES : List String := ["ADHNN", "ADHOC", "ADTBB", "ADTBS"]

/-- `Config.USERS`. -/
def USERS : List String := ["Samsonite000", "chaseisntonfire", "Nmatt73"]

/-- `Config.REMINDER_DAY` (Saturday; 0 is Monday). -/
def REMINDER_DAY : Nat := 5

/-- `Config.REMINDER_HOUR`. -/
def REMINDER_HOUR : Nat := 9

/-- `Config.REMINDER_MINUTE`. -/
def REMINDER_MINUTE : Nat := 0

/-! ## Readiness Store (`storage.py`, class `DynastyStorage`) -/

/-- Inner mapping: user name → ready flag. -/
abbrev UserTable := List (String × Bool)

/-- `DynastyStorage.data`: dynasty id → (user name → ready flag). -/
abbrev Table := List (String × UserTable)

/-- `DynastyStorage._create_default_data`: every configured dynasty maps every
configured user to `False`.  The configured lists are explicit parameters
(the Python code reads the module-level `DYNASTIES` / `USERS`). -/
def create_default_data (dynasties users : List String) : Table :=
  dynasties.map (fun d => (d, users.map (fun u => (u, false))))

/-- What `_load_data` finds on disk: no file, a file `json.load` raises on,
or a file parsed as a (shape-correct) JSON value. -/
inductive LoadInput where
  | missing
  | unparsable
  | parsed (t : Table)

/-- `DynastyStorage._load_data`: missing file or a `json.load` failure falls
back to the default table and schedules a save (second component `true`);
a successfully parsed file is adopted verbatim, with no shape check. -/
def load_data (dynasties users : List String) : LoadInput → Table × Bool
  | .missing => (create_default_data dynasties users, true)
  | .unparsable => (create_default_data dynasties users, true)
  | .parsed t => (t, false)

/-- `DynastyStorage.is_ready`: upper-cases the dynasty, returns `False` when
the dynasty or the user is absent, else the stored flag. -/
def is_ready (t : Table) (user dynasty : String) : Bool :=
  match alookup (upper dynasty) t with
  | none => false
  | some us =>
    match alookup user us with
    | none => false
    | some b => b

/-- `DynastyStorage.set_ready`: upper-cases the dynasty, returns `False`
leaving the table untouched when the dynasty or the user is absent, else
writes the flag and returns `True`.  The result pairs the returned boolean
with the table after the call. -/
def set_ready (t : Table) (user dynasty : String) (ready : Bool) : Bool × Table :=
  let d := upper dynasty
  match alookup d t with
  | none => (false, t)
  | some us =>
    match alookup user us with
    | none => (false, t)
    | some _ => (true, aupdate d (aupdate user ready us) t)

/-! ## Snapshot serialization (`_save_data_background` / `_load_data`) -/

/-- JSON values, the codomain of `json.load` and domain of `json.dump`. -/
inductive Json where
  | bool (b : Bool)
  | num (n : Int)
  | str (s : String)
  | obj (fields : List (String × Json))
  | arr (elems : List Json)
  | null

/-- The snapshot value `json.dump` writes for one dynasty's user map. -/
def dumpUsers (us : UserTable) : Json :=
  .obj (us.map (fun p => (p.1, .bool p.2)))

/-- The snapshot value `json.dump` writes in `_save_data_background`:
the table as a JSON object of objects of booleans. -/
def dumpTable (t : Table) : Json :=
  .obj (t.map (fun p => (p.1, dumpUsers p.2)))

/-- Reading the fields of one dynasty's user-map object back from a snapshot
value (every value must be a boolean). -/
def parseUserFields : List (String × Json) → Option UserTable
  | [] => some []
  | p :: ps =>
    match p.2, parseUserFields ps with
    | .bool b, some rest => some ((p.1, b) :: rest)
    | _, _ => none

/-- Reading one dynasty's user map back from a snapshot value, as
`json.load` reconstructs it (an object whose values are booleans). -/
def parseUsers : Json → Option UserTable
  | .obj fields => parseUserFields fields
  | _ => none

/-- Reading the fields of the outer snapshot object back. -/
def parseTableFields : List (String × Json) → Option Table
  | [] => some []
  | p :: ps =>
    match parseUsers p.2, parseTableFields ps with
    | some us, some rest => some ((p.1, us) :: rest)
    | _, _ => none

/-- Reading a whole table back from a snapshot value. -/
def parseTable : Json → Option Table
  | .obj fields => parseTableFields fields
  | _ => none

/-- The structural invariant of §3: outer keys are exactly the configured
dynasties, and under every dynasty the nested keys are exactly the
configured users. -/
def hasExactKeys (t : Table) (dynasties users : List String) : Bool :=
  (t.map Prod.fst == dynasties) && t.all (fun p => p.2.map Prod.fst == users)

/-! ## Event classifier and rules engine (`dynasty_tracker.py`, cog `DynastyTracker`) -/

/-- The structured messages the cog sends to the channel. -/
inductive Notification where
  /-- `mark_ready`'s confirmation embed naming user and dynasty. -/
  | confirm (user dynasty : String)
  /-- `auto_reset_dynasty`'s broadcast: the dynasty together with the mention
  tokens resolved for the tracked users. -/
  | broadcast (dynasty : String) (mentions : List String)
  /-- Reminder embed: one field per dynasty with outstanding users, the field
  carrying that dynasty's resolved mentions. -/
  | reminder (fields : List (String × List String))
  /-- The `notify` command's "All Caught Up!" embed. -/
  | allCaughtUp
  /-- The "Dynasty Not Found" error embed. -/
  | dynastyNotFound (dynasty : String)
  deriving DecidableEq, Repr

/-- Observable side effects of a handler invocation, in program order. -/
inductive Effect where
  | send (n : Notification)
  | deleteMessage
  deriving DecidableEq, Repr

/-- `DynastyTracker.auto_reset_dynasty`: set every tracked user's readiness
for the dynasty back to `False`, then broadcast with the mentions resolved
for the tracked users (users whose member lookup fails are skipped). -/
def auto_reset_dynasty (users : List String) (resolve : String → Option String)
    (t : Table) (dynasty : String) : Table × List Effect :=
  let t' := users.foldl (fun acc u => (set_ready acc u dynasty false).2) t
  let mentions := users.filterMap resolve
  (t', [.send (.broadcast dynasty mentions)])

/-- `DynastyTracker.mark_ready`: record the user ready, send the confirmation
embed, attempt to delete the originating message, then — if every tracked
user is now ready for the dynasty — run `auto_reset_dynasty`. -/
def mark_ready (users : List String) (resolve : String → Option String)
    (t : Table) (user dynasty : String) : Table × List Effect :=
  let t1 := (set_ready t user dynasty true).2
  let effs : List Effect := [.send (.confirm user dynasty), .deleteMessage]
  let all_ready := users.all (fun u => is_ready t1 u dynasty)
  if all_ready then
    let (t2, effs2) := auto_reset_dynasty users resolve t1 dynasty
    (t2, effs ++ effs2)
  else
    (t1, effs)

/-- An inbound chat message as the `on_message` listener sees it. -/
structure InMessage where
  content : String
  authorName : String
  fromSelf : Bool
  inGuild : Bool

/-- The author-resolution step of `on_message`: the first configured tracked
user whose upper-cased name is a substring of the upper-cased author name. -/
def resolveUser (users : List String) (authorName : String) : Option String :=
  users.find? (fun tu => containsSub (upper authorName) (upper tu))

/-- One iteration of `on_message`'s dynasty loop: when the dynasty and the
token `READY` both occur in the (upper-cased) content, resolve the author and
run `mark_ready` on the first matching tracked user, accumulating effects. -/
def on_message_step (users : List String) (resolve : String → Option String)
    (content authorName : String) (acc : Table × List Effect) (dynasty : String) :
    Table × List Effect :=
  if containsSub content dynasty && containsSub content "READY" then
    match resolveUser users authorName with
    | some tu =>
      let r := mark_ready users resolve acc.1 tu dynasty
      (r.1, acc.2 ++ r.2)
    | none => acc
  else acc

/-- `DynastyTracker.on_message`: drop messages from the bot itself and
messages outside a guild; otherwise upper-case the content and, for each
configured dynasty appearing in it together with the token `READY`, resolve
the author to a tracked user and run `mark_ready` (the user loop stops at the
first match; the dynasty loop does not stop). -/
def on_message (dynasties users : List String) (resolve : String → Option String)
    (t : Table) (m : InMessage) : Table × List Effect :=
  if m.fromSelf then (t, [])
  else if !m.inGuild then (t, [])
  else
    dynasties.foldl (on_message_step users resolve (upper m.content) m.authorName) (t, [])

/-- The not-ready roster both `notify` and `send_reminders` build: for each
dynasty in the list, the configured users whose `is_ready` is `false`,
keeping only dynasties with at least one such user. -/
def not_ready_map (toCheck users : List String) (t : Table) :
    List (String × List String) :=
  toCheck.filterMap (fun d =>
    let nr := users.filter (fun u => !is_ready t u d)
    if nr.isEmpty then none else some (d, nr))

/-- The reminder embed's fields: one per dynasty of the roster whose
outstanding users resolved to at least one mention. -/
def reminder_fields (roster : List (String × List String))
    (resolve : String → Option String) : List (String × List String) :=
  roster.filterMap (fun p =>
    let mentions := p.2.filterMap resolve
    if mentions.isEmpty then none else some (p.1, mentions))

/-- The `notify` command: for a named dynasty (upper-cased; rejected when not
configured) or all configured dynasties, collect the not-ready users; an empty
collection yields the "All Caught Up!" embed, otherwise a reminder embed with
one field per dynasty whose users resolved to mentions. -/
def notify_command (dynasties users : List String) (resolve : String → Option String)
    (t : Table) (dyn : Option String) : List Effect :=
  let toCheck := match dyn with
    | some d => [upper d]
    | none => dynasties
  let rejected := match dyn with
    | some d => !(dynasties.contains (upper d))
    | none => false
  if rejected then
    match dyn with
    | some d => [.send (.dynastyNotFound (upper d))]
    | none => []
  else
    let notifications := not_ready_map toCheck users t
    if notifications.isEmpty then
      [.send .allCaughtUp]
    else
      [.send (.reminder (reminder_fields notifications resolve))]

/-- The `reset` command's per-dynasty body (also the reset step of
`auto_reset_dynasty`): set every tracked user's readiness for the dynasty
to `False`. -/
def reset_dynasty (users : List String) (t : Table) (dynasty : String) : Table :=
  users.foldl (fun acc u => (set_ready acc u dynasty false).2) t

/-! ## Scheduler (`reminders.py`, cog `Reminders`) -/

/-- The wall-clock fields `reminder_task` reads off `datetime.now(tz)`. -/
structure Instant where
  weekday : Nat
  hour : Nat
  minute : Nat

/-- The gating condition of `Reminders.reminder_task`:
`now.weekday() == REMINDER_DAY and now.hour == REMINDER_HOUR and now.minute < 60`. -/
def reminder_gate (now : Instant) : Bool :=
  (now.weekday == REMINDER_DAY) && (now.hour == REMINDER_HOUR) && decide (now.minute < 60)

/-- `Reminders.send_reminders`: collect the not-ready users per dynasty;
if every dynasty's list is empty, return with no message; otherwise send one
reminder embed, with a field for each dynasty whose outstanding users
resolved to mentions. -/
def send_reminders (dynasties users : List String) (resolve : String → Option String)
    (t : Table) : List Effect :=
  let not_ready_users := not_ready_map dynasties users t
  if not_ready_users.isEmpty then []
  else
    [.send (.reminder (reminder_fields not_ready_users resolve))]

/-- One firing of the hourly `reminder_task`: run `send_reminders` when the
gate matches the current instant, otherwise do nothing.  The table is read
only; the tick never mutates it. -/
def reminder_task (dynasties users : List String) (resolve : String → Option String)
    (t : Table) (now : Instant) : List Effect :=
  if reminder_gate now then send_reminders dynasties users resolve t else []

/-! ## Helper lemmas about association lists -/

theorem alookup_eq_none_of_not_mem {l : List (String × α)} {k : String}
    (h : k ∉ l.map Prod.fst) : alookup k l = none := by
  induction l with
  | nil => rfl
  | cons p ps ih =>
    simp only [List.map_cons, List.mem_cons, not_or] at h
    have hk : ¬ p.1 = k := fun hk => h.1 hk.symm
    simp only [alookup, if_neg hk]
    exact ih h.2

theorem alookup_of_mem_fst {l : List (String × α)} {k : String}
    (h : k ∈ l.map Prod.fst) : ∃ v, alookup k l = some v := by
  induction l with
  | nil => simp at h
  | cons p ps ih =>
    by_cases hk : p.1 = k
    · exact ⟨p.2, by simp [alookup, hk]⟩
    · simp only [List.map_cons, List.mem_cons] at h
      rcases h with h | h
      · exact absurd h.symm hk
      · obtain ⟨v, hv⟩ := ih h
        exact ⟨v, by simp [alookup, hk, hv]⟩

theorem mem_of_alookup_eq_some {l : List (String × α)} {k : String} {v : α}
    (h : alookup k l = some v) : (k, v) ∈ l := by
  induction l with
  | nil => simp [alookup] at h
  | cons p ps ih =>
    obtain ⟨p1, p2⟩ := p
    by_cases hk : p1 = k
    · subst hk
      simp only [alookup, if_pos rfl] at h
      obtain rfl : p2 = v := Option.some.inj h
      exact List.mem_cons_self _ _
    · simp only [alookup, if_neg hk] at h
      exact List.mem_cons_of_mem _ (ih h)

theorem map_fst_aupdate (k : String) (v : α) (l : List (String × α)) :
    (aupdate k v l).map Prod.fst = l.map Prod.fst := by
  induction l with
  | nil => rfl
  | cons p ps ih =>
    by_cases hk : p.1 = k <;> simp [aupdate, hk, ih]

theorem mem_aupdate {l : List (String × α)} {k : String} {v : α} {q : String × α}
    (h : q ∈ aupdate k v l) : q = (k, v) ∨ q ∈ l := by
  induction l with
  | nil => simp [aupdate] at h
  | cons p ps ih =>
    by_cases hk : p.1 = k
    · simp only [aupdate, if_pos hk, List.mem_cons] at h
      rcases h with h | h
      · left; rw [h, hk]
      · right; exact List.mem_cons_of_mem _ h
    · simp only [aupdate, if_neg hk, List.mem_cons] at h
      rcases h with h | h
      · right; exact h ▸ List.mem_cons_self _ _
      · rcases ih h with h' | h'
        · left; exact h'
        · right; exact List.mem_cons_of_mem _ h'

/-! ## Structural-invariant lemmas -/

theorem map_fst_tag (l : List String) (f : String → α) :
    (l.map (fun x => (x, f x))).map Prod.fst = l := by
  induction l with
  | nil => rfl
  | cons x xs ih => simp [ih]

theorem hasExactKeys_default (dynasties users : List String) :
    hasExactKeys (create_default_data dynasties users) dynasties users = true := by
  simp only [hasExactKeys, create_default_data, Bool.and_eq_true, beq_iff_eq,
    List.all_eq_true]
  constructor
  · exact map_fst_tag dynasties _
  · intro p hp
    simp only [List.mem_map] at hp
    obtain ⟨d, _, rfl⟩ := hp
    exact map_fst_tag users (fun _ => false)

theorem hasExactKeys_set_ready (dynasties users : List String) (t : Table)
    (u d : String) (r : Bool) (ht : hasExactKeys t dynasties users = true) :
    hasExactKeys (set_ready t u d r).2 dynasties users = true := by
  cases hlk : alookup (upper d) t with
  | none => simp only [set_ready, hlk]; exact ht
  | some us =>
    cases hlu : alookup u us with
    | none => simp only [set_ready, hlk, hlu]; exact ht
    | some b =>
      simp only [set_ready, hlk, hlu]
      simp only [hasExactKeys, Bool.and_eq_true, beq_iff_eq, List.all_eq_true] at ht ⊢
      obtain ⟨hfst, hall⟩ := ht
      refine ⟨by rw [map_fst_aupdate]; exact hfst, ?_⟩
      intro p hp
      rcases mem_aupdate hp with rfl | hp'
      · have hus := hall _ (mem_of_alookup_eq_some hlk)
        simpa [map_fst_aupdate] using hus
      · exact hall p hp'

theorem hasExactKeys_reset_dynasty (dynasties users : List String) (d : String) :
    ∀ (l : List String) (t : Table), hasExactKeys t dynasties users = true →
      hasExactKeys (l.foldl (fun acc u => (set_ready acc u d false).2) t) dynasties users
        = true := by
  intro l
  induction l with
  | nil => intro t ht; simpa using ht
  | cons x xs ih =>
    intro t ht
    exact ih _ (hasExactKeys_set_ready dynasties users t x d false ht)

/-! ## Snapshot round-trip lemmas -/

theorem parseUsers_dumpUsers (us : UserTable) : parseUsers (dumpUsers us) = some us := by
  simp only [parseUsers, dumpUsers]
  induction us with
  | nil => rfl
  | cons p ps ih => simp [parseUserFields, ih]

theorem parseTable_dumpTable (t : Table) : parseTable (dumpTable t) = some t := by
  simp only [parseTable, dumpTable]
  induction t with
  | nil => rfl
  | cons p ps ih => simp [parseTableFields, parseUsers_dumpUsers, ih]

/-! ## Lemmas about the `on_message` dynasty loop -/

theorem on_message_step_mono (users : List String) (resolve : String → Option String)
    (content authorName : String) (acc : Table × List Effect) (d : String)
    (e : Effect) (he : e ∈ acc.2) :
    e ∈ (on_message_step users resolve content authorName acc d).2 := by
  unfold on_message_step
  split
  · cases hru : resolveUser users authorName with
    | none => simp only [hru]; exact he
    | some tu => simp only [hru]; exact List.mem_append_left _ he
  · exact he

theorem foldl_on_message_step_mono (users : List String) (resolve : String → Option String)
    (content authorName : String) :
    ∀ (l : List String) (acc : Table × List Effect) (e : Effect), e ∈ acc.2 →
      e ∈ (l.foldl (on_message_step users resolve content authorName) acc).2 := by
  intro l
  induction l with
  | nil => intro acc e he; exact he
  | cons d ds ih =>
    intro acc e he
    exact ih _ e (on_message_step_mono users resolve content authorName acc d e he)

theorem confirm_mem_mark_ready (users : List String) (resolve : String → Option String)
    (t : Table) (u d : String) :
    Effect.send (.confirm u d) ∈ (mark_ready users resolve t u d).2 := by
  simp only [mark_ready, auto_reset_dynasty]
  split <;> simp

theorem foldl_on_message_step_confirm (users : List String) (resolve : String → Option String)
    (content authorName : String) (u : String)
    (hu : resolveUser users authorName = some u) :
    ∀ (l : List String) (acc : Table × List Effect) (d : String), d ∈ l →
      containsSub content d = true → containsSub content "READY" = true →
      Effect.send (.confirm u d)
        ∈ (l.foldl (on_message_step users resolve content authorName) acc).2 := by
  intro l
  induction l with
  | nil => intro acc d hd _ _; simp at hd
  | cons d0 ds ih =>
    intro acc d hd hcd hcr
    rcases List.mem_cons.mp hd with rfl | hd'
    · simp only [List.foldl_cons]
      apply foldl_on_message_step_mono
      unfold on_message_step
      rw [if_pos (by simp [hcd, hcr])]
      simp only [hu]
      exact List.mem_append_right _ (confirm_mem_mark_ready users resolve acc.1 u d)
    · exact ih _ d hd' hcd hcr

/-! ## Concrete fixtures -/

/-- The table of the first run: all entries `false` for the configured lists. -/
def defaultTable : Table := create_default_data DYNASTIES USERS

/-- A table with every configured user ready for every configured dynasty. -/
def allReadyTable : Table := DYNASTIES.map (fun d => (d, USERS.map (fun u => (u, true))))

/-- A member resolver that finds every user, with the user's own name as the
mention token. -/
def idResolve : String → Option String := fun u => some u

/-- A table one mutation away from the default. -/
def mixedTable : Table := (set_ready defaultTable "chaseisntonfire" "ADHNN" true).2

/-! ## Claims -/

/-- C1: on a configuration with a single dynasty `D` and three distinct users,
starting from the all-false table, marking users 1 and 2 ready leaves a user
not ready and emits no broadcast (only the confirmation and the message
deletion); marking user 3 ready triggers AutoReset within the same operation:
afterwards `is_ready` is `false` for all three users, and the operation's
effects contain exactly one broadcast, naming a resolved mention for every
tracked user. -/
theorem C1_completion_trigger
    (D u1 u2 u3 m1 m2 m3 : String) (resolve : String → Option String)
    (hD : upper D = D)
    (h12 : u1 ≠ u2) (h13 : u1 ≠ u3) (h23 : u2 ≠ u3)
    (hm1 : resolve u1 = some m1) (hm2 : resolve u2 = some m2) (hm3 : resolve u3 = some m3) :
    let users := [u1, u2, u3]
    let r1 := mark_ready users resolve (create_default_data [D] users) u1 D
    let r2 := mark_ready users resolve r1.1 u2 D
    let r3 := mark_ready users resolve r2.1 u3 D
    (is_ready r1.1 u3 D = false ∧ r1.2 = [.send (.confirm u1 D), .deleteMessage]) ∧
    (is_ready r2.1 u3 D = false ∧ r2.2 = [.send (.confirm u2 D), .deleteMessage]) ∧
    (∀ u ∈ users, is_ready r3.1 u D = false) ∧
    r3.2 = [.send (.confirm u3 D), .deleteMessage, .send (.broadcast D [m1, m2, m3])] := by
  simp [mark_ready, set_ready, is_ready, auto_reset_dynasty, create_default_data,
    alookup, aupdate, hD, h12, h13, h23, Ne.symm h12, Ne.symm h13, Ne.symm h23,
    hm1, hm2, hm3]

/-- Witness for C1 at the configured users and dynasty `ADHNN`. -/
theorem C1_completion_trigger_witness :
    let users := ["Samsonite000", "chaseisntonfire", "Nmatt73"]
    let r1 := mark_ready users idResolve (create_default_data ["ADHNN"] users)
      "Samsonite000" "ADHNN"
    let r2 := mark_ready users idResolve r1.1 "chaseisntonfire" "ADHNN"
    let r3 := mark_ready users idResolve r2.1 "Nmatt73" "ADHNN"
    (is_ready r1.1 "Nmatt73" "ADHNN" = false ∧
      r1.2 = [.send (.confirm "Samsonite000" "ADHNN"), .deleteMessage]) ∧
    (is_ready r2.1 "Nmatt73" "ADHNN" = false ∧
      r2.2 = [.send (.confirm "chaseisntonfire" "ADHNN"), .deleteMessage]) ∧
    (∀ u ∈ users, is_ready r3.1 u "ADHNN" = false) ∧
    r3.2 = [.send (.confirm "Nmatt73" "ADHNN"), .deleteMessage,
      .send (.broadcast "ADHNN" ["Samsonite000", "chaseisntonfire", "Nmatt73"])] :=
  C1_completion_trigger "ADHNN" "Samsonite000" "chaseisntonfire" "Nmatt73"
    "Samsonite000" "chaseisntonfire" "Nmatt73" idResolve (by decide)
    (by decide) (by decide) (by decide) rfl rfl rfl

/-- C2 counterexample: the message `"ADHNN ADHOC READY"` contains the token
`READY` and two configured dynasty identifiers, yet produces a readiness
signal (confirmation and `set_ready`) for the second dynasty `ADHOC` as well,
not only for the first match `ADHNN`: the dynasty loop of `on_message` does
not stop at the first match. -/
theorem C2_counterexample :
    (on_message DYNASTIES USERS idResolve defaultTable
        ⟨"ADHNN ADHOC READY", "chaseisntonfire99", false, true⟩).2
      = [.send (.confirm "chaseisntonfire" "ADHNN"), .deleteMessage,
         .send (.confirm "chaseisntonfire" "ADHOC"), .deleteMessage] ∧
    is_ready (on_message DYNASTIES USERS idResolve defaultTable
        ⟨"ADHNN ADHOC READY", "chaseisntonfire99", false, true⟩).1
      "chaseisntonfire" "ADHOC" = true := by decide

/-- C2 (amended): a guild message from a resolvable author whose text contains
the token `READY` produces a readiness signal for EVERY configured dynasty
identifier appearing in the upper-cased text (each paired with the first
matching user), not only for the first matching dynasty. -/
theorem C2_signals_every_matching_dynasty
    (dynasties users : List String) (resolve : String → Option String) (t : Table)
    (m : InMessage) (hself : m.fromSelf = false) (hguild : m.inGuild = true)
    (d : String) (hd : d ∈ dynasties)
    (hcd : containsSub (upper m.content) d = true)
    (hcr : containsSub (upper m.content) "READY" = true)
    (u : String) (hu : resolveUser users m.authorName = some u) :
    Effect.send (.confirm u d) ∈ (on_message dynasties users resolve t m).2 := by
  unfold on_message
  rw [if_neg (by simp [hself]), if_neg (by simp [hguild])]
  exact foldl_on_message_step_confirm users resolve (upper m.content) m.authorName
    u hu dynasties (t, []) d hd hcd hcr

/-- Witness for the amended C2: the later dynasty `ADHOC` also gets a signal. -/
theorem C2_signals_every_matching_dynasty_witness :
    Effect.send (.confirm "chaseisntonfire" "ADHOC")
      ∈ (on_message DYNASTIES USERS idResolve defaultTable
          ⟨"ADHNN ADHOC READY", "chaseisntonfire99", false, true⟩).2 :=
  C2_signals_every_matching_dynasty DYNASTIES USERS idResolve defaultTable
    ⟨"ADHNN ADHOC READY", "chaseisntonfire99", false, true⟩ rfl rfl
    "ADHOC" (by decide) (by decide) (by decide) "chaseisntonfire" (by decide)

/-- C3 counterexample: with every configured user ready for every configured
dynasty, a tick at the configured slot (Saturday, hour 9) emits NOTHING — not
an "all caught up" notification: `send_reminders` returns before sending
anything when no user is outstanding. -/
theorem C3_counterexample :
    reminder_task DYNASTIES USERS idResolve allReadyTable ⟨5, 9, 0⟩ = [] := by decide

/-- C3 (amended): when every configured user is ready for every configured
dynasty, the scheduled-reminder path emits nothing at all; the "all caught up"
notification is emitted only by the manual `notify` command. -/
theorem C3_all_ready_scheduled_path_silent
    (t : Table) (resolve : String → Option String) (now : Instant)
    (hall : ∀ d ∈ DYNASTIES, ∀ u ∈ USERS, is_ready t u d = true) :
    reminder_task DYNASTIES USERS resolve t now = [] ∧
    notify_command DYNASTIES USERS resolve t none = [.send .allCaughtUp] := by
  have h1 : ∀ d ∈ DYNASTIES, USERS.filter (fun u => !is_ready t u d) = [] := by
    intro d hd
    rw [List.filter_eq_nil_iff]
    intro u hu
    simp [hall d hd u hu]
  have h2 : not_ready_map DYNASTIES USERS t = [] := by
    rw [not_ready_map, List.filterMap_eq_nil_iff]
    intro d hd
    simp [h1 d hd]
  constructor
  · unfold reminder_task
    split
    · simp [send_reminders, h2]
    · rfl
  · simp [notify_command, h2]

/-- Witness for the amended C3 at the all-ready table and the configured slot. -/
theorem C3_all_ready_scheduled_path_silent_witness :
    reminder_task DYNASTIES USERS idResolve allReadyTable ⟨5, 9, 30⟩ = [] ∧
    notify_command DYNASTIES USERS idResolve allReadyTable none = [.send .allCaughtUp] :=
  C3_all_ready_scheduled_path_silent allReadyTable idResolve ⟨5, 9, 30⟩ (by decide)

/-- C4 counterexample: the well-formed persisted snapshot `{}` is parsed
successfully and adopted verbatim by `_load_data`, leaving a table with no
entry for any configured dynasty — the invariant does not hold immediately
after loading a persisted snapshot of arbitrary content. -/
theorem C4_counterexample :
    parseTable (.obj []) = some [] ∧
    hasExactKeys (load_data DYNASTIES USERS (.parsed [])).1 DYNASTIES USERS = false := by
  decide

/-- C4 (amended): the exact-keys invariant holds after a first-run load
(missing file) and after a load failure (unparsable file) — both of which
also schedule an immediate persist — and it is preserved by every `set_ready`
and every per-dynasty reset; but a successfully parsed snapshot is adopted
verbatim, so the invariant is not re-established from arbitrary snapshot
content. -/
theorem C4_invariant_amended (dynasties users : List String) (t : Table)
    (u d dy : String) (r : Bool) (ht : hasExactKeys t dynasties users = true) :
    (hasExactKeys (load_data dynasties users .missing).1 dynasties users = true ∧
      (load_data dynasties users .missing).2 = true) ∧
    (hasExactKeys (load_data dynasties users .unparsable).1 dynasties users = true ∧
      (load_data dynasties users .unparsable).2 = true) ∧
    hasExactKeys (set_ready t u d r).2 dynasties users = true ∧
    hasExactKeys (reset_dynasty users t dy) dynasties users = true :=
  ⟨⟨hasExactKeys_default dynasties users, rfl⟩,
   ⟨hasExactKeys_default dynasties users, rfl⟩,
   hasExactKeys_set_ready dynasties users t u d r ht,
   hasExactKeys_reset_dynasty dynasties users dy users t ht⟩

/-- Witness for the amended C4 at the configured lists and the default table. -/
theorem C4_invariant_amended_witness :
    (hasExactKeys (load_data DYNASTIES USERS .missing).1 DYNASTIES USERS = true ∧
      (load_data DYNASTIES USERS .missing).2 = true) ∧
    (hasExactKeys (load_data DYNASTIES USERS .unparsable).1 DYNASTIES USERS = true ∧
      (load_data DYNASTIES USERS .unparsable).2 = true) ∧
    hasExactKeys (set_ready defaultTable "Samsonite000" "adhnn" true).2 DYNASTIES USERS
      = true ∧
    hasExactKeys (reset_dynasty USERS defaultTable "ADHOC") DYNASTIES USERS = true :=
  C4_invariant_amended DYNASTIES USERS defaultTable "Samsonite000" "adhnn" "ADHOC" true
    (by decide)

/-- C5: when the upper-cased dynasty argument is not a key of the table, or
the user argument is not a nested key under that dynasty, `is_ready` returns
`false` and `set_ready` returns `false` with the table left exactly as it was
(no partial mutation); both operations are total functions of the embedding,
so neither raises to the caller. -/
theorem C5_unknown_key_soft_fail (t : Table) (u d : String) (r : Bool)
    (h : upper d ∉ t.map Prod.fst ∨
      ∃ us, alookup (upper d) t = some us ∧ u ∉ us.map Prod.fst) :
    is_ready t u d = false ∧ set_ready t u d r = (false, t) := by
  rcases h with h | ⟨us, hus, hu⟩
  · have hd := alookup_eq_none_of_not_mem h
    exact ⟨by simp [is_ready, hd], by simp [set_ready, hd]⟩
  · have hu' := alookup_eq_none_of_not_mem hu
    exact ⟨by simp [is_ready, hus, hu'], by simp [set_ready, hus, hu']⟩

/-- Witness for C5: an unconfigured dynasty argument on the default table. -/
theorem C5_unknown_key_soft_fail_witness :
    is_ready defaultTable "Samsonite000" "UNKNOWN" = false ∧
    set_ready defaultTable "Samsonite000" "UNKNOWN" true = (false, defaultTable) :=
  C5_unknown_key_soft_fail defaultTable "Samsonite000" "UNKNOWN" true
    (Or.inl (by decide))

/-- C6: for every wall-clock instant (with a real minute value, below 60) the
hourly tick runs the reminder path exactly when the instant's weekday equals
the configured weekday and its hour equals the configured hour, and emits
nothing otherwise; the configured minute takes no part in the gate (the
code's `now.minute < 60` conjunct is vacuous), so any wakeup inside the
configured hour on the configured weekday fires.  The tick only reads the
table, so it changes no state. -/
theorem C6_tick_gate (dynasties users : List String) (resolve : String → Option String)
    (t : Table) (now : Instant) (hm : now.minute < 60) :
    reminder_task dynasties users resolve t now =
      (if now.weekday = REMINDER_DAY ∧ now.hour = REMINDER_HOUR
        then send_reminders dynasties users resolve t else []) := by
  unfold reminder_task reminder_gate
  by_cases h1 : now.weekday = REMINDER_DAY <;> by_cases h2 : now.hour = REMINDER_HOUR <;>
    simp [h1, h2, hm]

/-- Witness for C6 at a non-matching instant (Wednesday 14:30). -/
theorem C6_tick_gate_witness :
    reminder_task DYNASTIES USERS idResolve defaultTable ⟨2, 14, 30⟩ =
      (if (2 : Nat) = REMINDER_DAY ∧ (14 : Nat) = REMINDER_HOUR
        then send_reminders DYNASTIES USERS idResolve defaultTable else []) :=
  C6_tick_gate DYNASTIES USERS idResolve defaultTable ⟨2, 14, 30⟩ (by decide)

/-- C7: for a table whose keys are exactly the configured dynasties and users,
serializing it to the snapshot value written by the background save and
parsing that snapshot back yields a table on which `is_ready` agrees with the
original for every pair (in fact the identical table). -/
theorem C7_snapshot_roundtrip (t : Table)
    (ht : hasExactKeys t DYNASTIES USERS = true) :
    ∃ t', parseTable (dumpTable t) = some t' ∧
      ∀ u d : String, is_ready t' u d = is_ready t u d :=
  ⟨t, parseTable_dumpTable t, fun _ _ => rfl⟩

/-- Witness for C7 at a mutated configured table. -/
theorem C7_snapshot_roundtrip_witness :
    ∃ t', parseTable (dumpTable mixedTable) = some t' ∧
      ∀ u d : String, is_ready t' u d = is_ready mixedTable u d :=
  C7_snapshot_roundtrip mixedTable (by decide)

/-- C8: the message `"ADHNN is READY now"` from author `"chaseisntonfire99"`
resolves to the signal (user `chaseisntonfire`, dynasty `ADHNN`) — the
confirmation is emitted and the entry set — while `"hello world"` produces no
signal and no side effect; and an author display name containing several
configured identifiers resolves to the first one in configuration order
(`Samsonite000` before `chaseisntonfire`). -/
theorem C8_classifier_examples :
    ((on_message DYNASTIES USERS idResolve defaultTable
        ⟨"ADHNN is READY now", "chaseisntonfire99", false, true⟩).2
      = [.send (.confirm "chaseisntonfire" "ADHNN"), .deleteMessage] ∧
     is_ready (on_message DYNASTIES USERS idResolve defaultTable
        ⟨"ADHNN is READY now", "chaseisntonfire99", false, true⟩).1
        "chaseisntonfire" "ADHNN" = true) ∧
    on_message DYNASTIES USERS idResolve defaultTable
        ⟨"hello world", "chaseisntonfire99", false, true⟩ = (defaultTable, []) ∧
    (on_message DYNASTIES USERS idResolve defaultTable
        ⟨"ADHNN READY", "Samsonite000chaseisntonfire", false, true⟩).2
      = [.send (.confirm "Samsonite000" "ADHNN"), .deleteMessage] := by decide

/-- C9: the store upper-cases only the dynasty argument, never the user: on a
table with the configured key structure, a user string not literally in the
configured list — even one that differs from a configured user only in letter
case — is unknown (`is_ready` and `set_ready` return `false` with no
mutation), while `set_ready` with a configured user succeeds for any casing
of the dynasty. -/
theorem C9_user_not_normalized (t : Table) (u' U d : String) (r : Bool)
    (ht : hasExactKeys t DYNASTIES USERS = true)
    (hcase : upper u' = upper U) (hU : U ∈ USERS) (hu' : u' ∉ USERS)
    (hd : upper d ∈ DYNASTIES) :
    (is_ready t u' d = false ∧ set_ready t u' d r = (false, t)) ∧
    (set_ready t U d r).1 = true := by
  simp only [hasExactKeys, Bool.and_eq_true, beq_iff_eq, List.all_eq_true] at ht
  obtain ⟨hfst, hall⟩ := ht
  obtain ⟨us, hus⟩ := alookup_of_mem_fst (l := t) (k := upper d) (by rw [hfst]; exact hd)
  have husk : us.map Prod.fst = USERS := hall _ (mem_of_alookup_eq_some hus)
  have hu'n : alookup u' us = none := alookup_eq_none_of_not_mem (by rw [husk]; exact hu')
  obtain ⟨b, hb⟩ := alookup_of_mem_fst (l := us) (k := U) (by rw [husk]; exact hU)
  refine ⟨⟨?_, ?_⟩, ?_⟩
  · simp [is_ready, hus, hu'n]
  · simp [set_ready, hus, hu'n]
  · simp [set_ready, hus, hb]

/-- Witness for C9: `"samsonite000"` (lower case) is unknown although
`"Samsonite000"` is configured, while the dynasty `"adhnn"` (lower case)
succeeds. -/
theorem C9_user_not_normalized_witness :
    (is_ready defaultTable "samsonite000" "adhnn" = false ∧
      set_ready defaultTable "samsonite000" "adhnn" true = (false, defaultTable)) ∧
    (set_ready defaultTable "Samsonite000" "adhnn" true).1 = true :=
  C9_user_not_normalized defaultTable "samsonite000" "Samsonite000" "adhnn" true
    (by decide) (by decide) (by decide) (by decide) (by decide)

/-- C10: a message from the bot itself, and a message outside a guild, is
discarded by `on_message` before classification: the table is unchanged and
no effect — no confirmation, broadcast or message deletion — is produced,
whatever the message text. -/
theorem C10_self_and_dm_discarded (dynasties users : List String)
    (resolve : String → Option String) (t : Table) (m : InMessage)
    (h : m.fromSelf = true ∨ m.inGuild = false) :
    on_message dynasties users resolve t m = (t, []) := by
  unfold on_message
  rcases h with h | h
  · simp [h]
  · cases hf : m.fromSelf <;> simp [h, hf]

/-- Witness for C10: a self-authored message whose text carries a dynasty
identifier and the token `READY` is still dropped. -/
theorem C10_self_and_dm_discarded_witness :
    on_message DYNASTIES USERS idResolve defaultTable
      ⟨"ADHNN READY", "chaseisntonfire", true, true⟩ = (defaultTable, []) :=
  C10_self_and_dm_discarded DYNASTIES USERS idResolve defaultTable
    ⟨"ADHNN READY", "chaseisntonfire", true, true⟩ (Or.inl rfl)

end DynastyBot
